import Mathlib

/- Shallow embedding of the rt-mcp2517 CAN controller driver.
   Definitions are translated from the Rust sources under src/:
   message.rs, config.rs, filter.rs, status.rs, registers.rs and can.rs.
   Machine integers are modelled as Nat with explicit reductions modulo
   powers of two where the source performs casts or wrapping arithmetic. -/

namespace Mcp2517

/-- Data length code, enum DLC from message.rs. -/
inductive DLC where
  | zero | one | two | three | four | five | six | seven | eight
  | twelve | sixteen | twenty | twentyFour | thirtyTwo | fortyEight | sixtyFour
deriving DecidableEq

/-- Byte count encoded by a DLC value, the decode direction of DLC.from_length. -/
def dlcByteCount : DLC → Nat
  | .zero => 0
  | .one => 1
  | .two => 2
  | .three => 3
  | .four => 4
  | .five => 5
  | .six => 6
  | .seven => 7
  | .eight => 8
  | .twelve => 12
  | .sixteen => 16
  | .twenty => 20
  | .twentyFour => 24
  | .thirtyTwo => 32
  | .fortyEight => 48
  | .sixtyFour => 64

/-- The 4-bit on-wire code of a DLC value. -/
def dlcCode : DLC → Nat
  | .zero => 0
  | .one => 1
  | .two => 2
  | .three => 3
  | .four => 4
  | .five => 5
  | .six => 6
  | .seven => 7
  | .eight => 8
  | .twelve => 9
  | .sixteen => 10
  | .twenty => 11
  | .twentyFour => 12
  | .thirtyTwo => 13
  | .fortyEight => 14
  | .sixtyFour => 15

/-- DLC.from_length from message.rs: the supported payload byte counts. -/
def dlcFromLength (v : Nat) : Option DLC :=
  if v = 0 then some .zero
  else if v = 1 then some .one
  else if v = 2 then some .two
  else if v = 3 then some .three
  else if v = 4 then some .four
  else if v = 5 then some .five
  else if v = 6 then some .six
  else if v = 7 then some .seven
  else if v = 8 then some .eight
  else if v = 12 then some .twelve
  else if v = 16 then some .sixteen
  else if v = 20 then some .twenty
  else if v = 24 then some .twentyFour
  else if v = 32 then some .thirtyTwo
  else if v = 48 then some .fortyEight
  else if v = 64 then some .sixtyFour
  else none

/-- Errors of TxMessage construction, enum MessageError from message.rs. -/
inductive MessageError where
  | invalidLength (n : Nat)
  | invalidTypeSize (n : Nat)
deriving DecidableEq

/-- Message kind: Can20 with max length L, or CanFd with max length L and a
bit rate switch flag (message.rs). -/
inductive MsgKind where
  | can20 (L : Nat)
  | canFd (L : Nat) (bitrateSwitch : Bool)
deriving DecidableEq

/-- Compile time maximum payload length of a message kind. -/
def MsgKind.maxLen : MsgKind → Nat
  | .can20 L => L
  | .canFd L _ => L

/-- Transmit message object header, struct TxHeader from message.rs, with each
bitfield held as a Nat or Bool. -/
structure TxHeader where
  sid11 : Bool := false
  extendedIdentifier : Nat := 0
  standardIdentifier : Nat := 0
  sequence : Nat := 0
  errorStatusIndicator : Bool := false
  fdFrame : Bool := false
  bitRateSwitch : Bool := false
  remoteTransmissionRequest : Bool := false
  identifierExtensionFlag : Bool := false
  dataLengthCode : DLC := .zero
deriving DecidableEq

/-- CAN identifier, the embedded_can Id type: standard or extended raw value. -/
inductive CanId where
  | standard (raw : Nat)
  | extended (raw : Nat)
deriving DecidableEq

/-- MessageType.setup_header from message.rs, for both Can20 and CanFd kinds:
validates the payload length against the kind and sets the FD flags. -/
def setupHeader (kind : MsgKind) (header : TxHeader) (payloadLength : Nat) :
    Except MessageError TxHeader :=
  match kind with
  | .can20 L =>
    if L > 8 ∨ payloadLength > 8 then .error (.invalidLength (max payloadLength L))
    else if payloadLength > L then .error (.invalidLength payloadLength)
    else if L % 4 ≠ 0 then .error (.invalidTypeSize L)
    else .ok header
  | .canFd L brs =>
    if L > 64 ∨ payloadLength > 64 then .error (.invalidLength (max payloadLength L))
    else if payloadLength > L then .error (.invalidLength payloadLength)
    else if L % 4 ≠ 0 then .error (.invalidTypeSize L)
    else .ok { header with bitRateSwitch := brs, fdFrame := true }

/-- The upward DLC walk in TxMessage.new: increment the length until a
supported DLC code is found. The source loop carries no fuel; 65 steps of
fuel are sufficient for every length the setup checks let through. -/
def findDlcLen : Nat → Nat → Option Nat
  | _, 0 => none
  | v, fuel + 1 => if (dlcFromLength v).isSome then some v else findDlcLen (v + 1) fuel

/-- Transmit message object, struct TxMessage from message.rs. -/
structure TxMessage where
  header : TxHeader
  buff : List Nat
  messageType : MsgKind
deriving DecidableEq

/-- TxMessage.new from message.rs: validate via setup_header, walk the DLC
codes upward from the payload length, then store the identifier fields. -/
def txMessageNew (kind : MsgKind) (data : List Nat) (identifier : CanId) :
    Except MessageError TxMessage :=
  match setupHeader kind {} data.length with
  | .error e => .error e
  | .ok header0 =>
    match findDlcLen data.length 65 with
    | none => .error (.invalidLength data.length)
    | some len =>
      match dlcFromLength len with
      | none => .error (.invalidLength len)
      | some dlc =>
        let header1 := { header0 with dataLengthCode := dlc }
        let header2 :=
          match identifier with
          | .standard sid => { header1 with standardIdentifier := sid }
          | .extended eid =>
            { header1 with
                extendedIdentifier := eid &&& 0x3FFFF,
                standardIdentifier := (eid >>> 18) &&& 0x7FF,
                identifierExtensionFlag := true }
        .ok { header := header2, buff := data, messageType := kind }

/-- RxHeader.get_id reconstruction from message.rs: for extended frames the
identifier is rebuilt as standard shifted left by 18, or-ed with extended. -/
def reconstructExtendedId (standardId extendedId : Nat) : Nat :=
  (standardId <<< 18) ||| extendedId

/-- The supported DLC byte counts as the specification enumerates them. -/
def supportedDlcLengths : List Nat :=
  [0, 1, 2, 3, 4, 5, 6, 7, 8, 12, 16, 20, 24, 32, 48, 64]

/-- Chip system clock, enum SysClk from config.rs. -/
inductive SysClk where
  | mhz20 | mhz40
deriving DecidableEq

/-- CAN bus baud rate, enum CanBaudRate from config.rs. -/
inductive CanBaudRate where
  | kbps1000 | kbps500 | kbps250 | kbps125 | kbps50 | kbps10 | kbps5
deriving DecidableEq

/-- Bit rate configuration, struct BitRateConfig from config.rs. -/
structure BitRateConfig where
  sysClk : SysClk
  canSpeed : CanBaudRate
deriving DecidableEq

/-- BitRateConfig.calculate_values from config.rs, returning the four
C1NBTCFG bytes in the order BRP, TSEG1, TSEG2, SJW. -/
def calculateValues (c : BitRateConfig) : List Nat :=
  match c.sysClk, c.canSpeed with
  | .mhz20, .kbps1000 => [0, 13, 4, 1]
  | .mhz20, .kbps500 => [0, 30, 7, 1]
  | .mhz40, .kbps1000 => [0, 30, 7, 1]
  | .mhz20, .kbps250 => [0, 62, 15, 1]
  | .mhz40, .kbps500 => [0, 62, 15, 1]
  | .mhz20, .kbps125 => [0, 126, 31, 1]
  | .mhz40, .kbps250 => [0, 126, 31, 1]
  | _, _ => [0, 255, 63, 1]

/-- Modelled from the spec: the section 6 bit time table, rows exactly as
listed there, with every unlisted pair mapped to the fallback row. Used to
compare the source function against the specification table. -/
def specBitTimeTable (c : BitRateConfig) : List Nat :=
  match c.sysClk, c.canSpeed with
  | .mhz20, .kbps1000 => [0, 13, 4, 1]
  | .mhz20, .kbps500 => [0, 30, 7, 1]
  | .mhz40, .kbps1000 => [0, 30, 7, 1]
  | .mhz20, .kbps250 => [0, 62, 15, 1]
  | .mhz40, .kbps500 => [0, 62, 15, 1]
  | .mhz20, .kbps125 => [0, 126, 31, 1]
  | .mhz40, .kbps250 => [0, 126, 31, 1]
  | _, _ => [0, 255, 63, 1]

/-- Filter mask register bitfield, struct FilterMaskReg from registers.rs. -/
structure FilterMaskReg where
  mide : Bool := false
  msid11 : Bool := false
  meid : Nat := 0
  msid : Nat := 0
deriving DecidableEq

/-- Filter object register bitfield, struct FilterObjectReg from registers.rs. -/
structure FilterObjectReg where
  exide : Bool := false
  sid11 : Bool := false
  eid : Nat := 0
  sid : Nat := 0
deriving DecidableEq

/-- Filter object, struct Filter from filter.rs. -/
structure Filter where
  index : Nat := 0
  maskBits : FilterMaskReg := {}
  filterBits : FilterObjectReg := {}
deriving DecidableEq

/-- StandardId.new of the external embedded_can crate: accepts raw values up
to 0x7FF and returns none above that bound. -/
def standardIdNew (raw : Nat) : Option Nat :=
  if raw ≤ 0x7FF then some raw else none

/-- ExtendedId.new of the external embedded_can crate: accepts raw values up
to 0x1FFFFFFF and returns none above that bound. -/
def extendedIdNew (raw : Nat) : Option Nat :=
  if raw ≤ 0x1FFFFFFF then some raw else none

/-- Filter.set_mask from filter.rs: store the mask identifier into the mask
register fields, splitting an extended value into its 18 low bits and the
11 bits above them. -/
def setMask (f : Filter) (identifier : CanId) : Filter :=
  match identifier with
  | .standard sid => { f with maskBits := { f.maskBits with msid := sid } }
  | .extended eid =>
    { f with maskBits := { f.maskBits with
        meid := eid &&& 0x3FFFF,
        msid := (eid >>> 18) &&& 0x7FF } }

/-- Filter.set_mask_standard_id from filter.rs; the unwrap panic on an
invalid StandardId is modelled as none. -/
def setMaskStandardId (f : Filter) (mask : Nat) : Option Filter :=
  (standardIdNew mask).map (fun sid => setMask f (.standard sid))

/-- Filter.set_mask_extended_id from filter.rs; the unwrap panic on an
invalid ExtendedId is modelled as none. -/
def setMaskExtendedId (f : Filter) (mask : Nat) : Option Filter :=
  (extendedIdNew mask).map (fun eid => setMask f (.extended eid))

/-- Operation mode, enum OperationMode from status.rs. -/
inductive OperationMode where
  | normalCANFD | sleep | internalLoopback | listenOnly
  | configuration | externalLoopback | normalCAN2 | restrictedOperation
deriving DecidableEq

/-- Numeric value of an operation mode, the enum discriminants in status.rs. -/
def OperationMode.val : OperationMode → Nat
  | .normalCANFD => 0
  | .sleep => 1
  | .internalLoopback => 2
  | .listenOnly => 3
  | .configuration => 4
  | .externalLoopback => 5
  | .normalCAN2 => 6
  | .restrictedOperation => 7

/-- Clock output divisor, enum ClockOutputDivisor from config.rs. -/
inductive ClockOutputDivisor where
  | divideBy10 | divideBy4 | divideBy2 | divideBy1
deriving DecidableEq

/-- Enum discriminant of a clock output divisor. -/
def ClockOutputDivisor.val : ClockOutputDivisor → Nat
  | .divideBy10 => 3
  | .divideBy4 => 2
  | .divideBy2 => 1
  | .divideBy1 => 0

/-- System clock divisor, enum SystemClockDivisor from config.rs. -/
inductive SystemClockDivisor where
  | divideBy2 | divideBy1
deriving DecidableEq

/-- Enum discriminant of a system clock divisor. -/
def SystemClockDivisor.val : SystemClockDivisor → Nat
  | .divideBy2 => 1
  | .divideBy1 => 0

/-- PLL setting, enum PLLSetting from config.rs. -/
inductive PLLSetting where
  | tenTimesPLL | directXTALOscillator
deriving DecidableEq

/-- Enum discriminant of a PLL setting. -/
def PLLSetting.val : PLLSetting → Nat
  | .tenTimesPLL => 1
  | .directXTALOscillator => 0

/-- Oscillator and clock configuration, struct ClockConfiguration in config.rs. -/
structure ClockConfiguration where
  clockOutput : ClockOutputDivisor := .divideBy1
  systemClock : SystemClockDivisor := .divideBy1
  disableClock : Bool := false
  pll : PLLSetting := .directXTALOscillator
deriving DecidableEq

/-- ClockConfiguration.as_register from config.rs. -/
def ClockConfiguration.asRegister (c : ClockConfiguration) : Nat :=
  (c.clockOutput.val <<< 5) ||| (c.systemClock.val <<< 4) |||
    ((if c.disableClock then 1 else 0) <<< 2) ||| c.pll.val

/-- Retransmission attempts, enum RetransmissionAttempts from config.rs. -/
inductive RetransmissionAttempts where
  | disabled | three | unlimited
deriving DecidableEq

/-- Enum discriminant of a retransmission attempts setting. -/
def RetransmissionAttempts.val : RetransmissionAttempts → Nat
  | .disabled => 0
  | .three => 1
  | .unlimited => 2

/-- Payload size, enum PayloadSize from config.rs. -/
inductive PayloadSize where
  | eightBytes | twelveBytes | sixteenBytes | twentyBytes
  | twentyFourBytes | thirtyTwoBytes | fortyEightBytes | sixtyFourBytes
deriving DecidableEq

/-- Enum discriminant of a payload size. -/
def PayloadSize.val : PayloadSize → Nat
  | .eightBytes => 0
  | .twelveBytes => 1
  | .sixteenBytes => 2
  | .twentyBytes => 3
  | .twentyFourBytes => 4
  | .thirtyTwoBytes => 5
  | .fortyEightBytes => 6
  | .sixtyFourBytes => 7

/-- FIFO configuration, struct FifoConfiguration from config.rs. -/
structure FifoConfiguration where
  rxSize : Nat := 32
  txAttempts : RetransmissionAttempts := .unlimited
  txPriority : Nat := 0
  txSize : Nat := 32
  plSize : PayloadSize := .eightBytes
  txEnable : Bool := true
deriving DecidableEq

/-- FifoConfiguration.limit_size from config.rs: clamp to the range 1 to 32. -/
def limitSize (size : Nat) : Nat := max 1 (min size 32)

/-- FifoConfiguration.as_rx_register_3 from config.rs. -/
def FifoConfiguration.asRxRegister3 (f : FifoConfiguration) : Nat :=
  (limitSize f.rxSize - 1) ||| (f.plSize.val <<< 5)

/-- FifoConfiguration.as_tx_register_0 from config.rs. -/
def FifoConfiguration.asTxRegister0 (f : FifoConfiguration) : Nat :=
  if f.txEnable then 128 else 0

/-- FifoConfiguration.as_tx_register_2 from config.rs. -/
def FifoConfiguration.asTxRegister2 (f : FifoConfiguration) : Nat :=
  (f.txAttempts.val <<< 5) ||| min f.txPriority 31

/-- FifoConfiguration.as_tx_register_3 from config.rs. -/
def FifoConfiguration.asTxRegister3 (f : FifoConfiguration) : Nat :=
  (limitSize f.txSize - 1) ||| (f.plSize.val <<< 5)

/-- Request mode, enum RequestMode from config.rs. -/
inductive RequestMode where
  | normalCANFD | internalLoopback | externalLoopback | listenOnly | normalCAN2
deriving DecidableEq

/-- RequestMode.to_operation_mode from config.rs. -/
def RequestMode.toOperationMode : RequestMode → OperationMode
  | .normalCANFD => .normalCANFD
  | .internalLoopback => .internalLoopback
  | .externalLoopback => .externalLoopback
  | .listenOnly => .listenOnly
  | .normalCAN2 => .normalCAN2

/-- Full configuration, struct Configuration from config.rs. -/
structure Configuration where
  clock : ClockConfiguration := {}
  fifo : FifoConfiguration := {}
  mode : RequestMode := .normalCANFD
  bitRate : BitRateConfig := { sysClk := .mhz20, canSpeed := .kbps250 }
deriving DecidableEq

/-- C1NBTCFG.from_bytes followed by the u32 conversion of the external
modular_bitfield_msb crate: the bitfield is MSB first, so the first byte of
BRP, TSEG1, TSEG2, SJW becomes the most significant byte of the register
word. The byte order is pinned by the repository test
test_configure_correct, which expects the bytes 1, 15, 62, 0 on the wire
for the values 0, 62, 15, 1. -/
def nbtToU32 (values : List Nat) : Nat :=
  values.getD 0 0 * 16777216 + values.getD 1 0 * 65536 +
    values.getD 2 0 * 256 + values.getD 3 0

/-- One observable SPI bus event: chip select assert, chip select release,
or a full duplex transfer emitting the given bytes. -/
inductive BusOp where
  | csLow
  | csHigh
  | xfer (out : List Nat)
deriving DecidableEq

/-- State of the modelled SPI environment: the scripted responses remaining
for each coming transfer, the scripted readings of the monotonic clock, and
the bus events emitted so far. -/
structure SpiSt where
  responses : List (List Nat)
  clocks : List Nat
  trace : List BusOp
deriving DecidableEq

/-- One raw transfer: emits the outgoing bytes and consumes the next
scripted response. -/
def spiXfer (st : SpiSt) (out : List Nat) : List Nat × SpiSt :=
  (st.responses.headD [],
   { st with responses := st.responses.tail, trace := st.trace ++ [.xfer out] })

/-- Assert the chip select pin. -/
def csAssert (st : SpiSt) : SpiSt := { st with trace := st.trace ++ [.csLow] }

/-- Release the chip select pin. -/
def csRelease (st : SpiSt) : SpiSt := { st with trace := st.trace ++ [.csHigh] }

/-- Command word from can.rs cmd_buffer: the 12 bit address or-ed with the
4 bit opcode shifted left by 12. Opcodes are 0 reset, 2 write, 3 read. -/
def cmdWord (register : Nat) (opcode : Nat) : Nat :=
  (register &&& 0xFFF) ||| (opcode <<< 12)

/-- The three byte buffer of cmd_buffer in can.rs. -/
def cmdBuffer (register : Nat) (opcode : Nat) : List Nat :=
  [(cmdWord register opcode >>> 8) % 256, cmdWord register opcode &&& 0xFF, 0]

/-- MCP2517.transfer from can.rs: three byte transaction under one chip
select cycle, returning the third received byte. -/
def busTransfer (st : SpiSt) (buffer : List Nat) : Nat × SpiSt :=
  let st1 := csAssert st
  let (resp, st2) := spiXfer st1 buffer
  (resp.getD 2 0, csRelease st2)

/-- MCP2517.read_register from can.rs. -/
def readRegister (st : SpiSt) (register : Nat) : Nat × SpiSt :=
  busTransfer st (cmdBuffer register 3)

/-- The buffer of MCP2517.write_register: the command bytes followed by the
value byte. -/
def writeBuffer (register value : Nat) : List Nat :=
  [(cmdWord register 2 >>> 8) % 256, cmdWord register 2 &&& 0xFF, value]

/-- MCP2517.write_register from can.rs. -/
def writeRegister (st : SpiSt) (register value : Nat) : SpiSt :=
  (busTransfer st (writeBuffer register value)).2

/-- Little endian byte decomposition of a 32 bit value, u32 to_le_bytes. -/
def leBytes4 (v : Nat) : List Nat :=
  [v % 256, (v >>> 8) % 256, (v >>> 16) % 256, (v >>> 24) % 256]

/-- MCP2517.write32 from can.rs: command bytes followed by the value in
little endian order, one chip select cycle. -/
def write32 (st : SpiSt) (register value : Nat) : SpiSt :=
  let buffer := [(cmdWord register 2 >>> 8) % 256, cmdWord register 2 &&& 0xFF] ++ leBytes4 value
  let st1 := csAssert st
  let (_, st2) := spiXfer st1 buffer
  csRelease st2

/-- MCP2517.read32 from can.rs: six byte transaction, the last four received
bytes assembled little endian. -/
def read32 (st : SpiSt) (register : Nat) : Nat × SpiSt :=
  let buffer := [(cmdWord register 3 >>> 8) % 256, cmdWord register 3 &&& 0xFF, 0, 0, 0, 0]
  let st1 := csAssert st
  let (resp, st2) := spiXfer st1 buffer
  (resp.getD 2 0 + resp.getD 3 0 * 256 + resp.getD 4 0 * 65536 + resp.getD 5 0 * 16777216,
   csRelease st2)

/-- MCP2517.fifo_control_register from can.rs. -/
def fifoControlRegister (fifoIndex : Nat) : Nat := 0x5C + 12 * (fifoIndex - 1)

/-- MCP2517.fifo_status_register from can.rs. -/
def fifoStatusRegister (fifoIndex : Nat) : Nat := 0x60 + 12 * (fifoIndex - 1)

/-- MCP2517.fifo_user_address_register from can.rs. -/
def fifoUserAddressRegister (fifoIndex : Nat) : Nat := 0x64 + 12 * (fifoIndex - 1)

/-- MCP2517.filter_control_register_byte from can.rs. -/
def filterControlRegisterByte (filterIndex : Nat) : Nat := 0x1D0 + filterIndex

/-- Errors of the driver, the union of enum ConfigError and enum Error in
can.rs reachable in this model. -/
inductive CanError where
  | clockError
  | configurationModeTimeout
  | requestModeTimeout
  | invalidPayloadLength (n : Nat)
  | invalidRamAddress (n : Nat)
  | invalidBufferSize (n : Nat)
deriving DecidableEq

/-- Result of a modelled driver call: success, a driver error, or diverged,
meaning the scripted responses ran out while the source code was still
busy polling and would keep issuing bus reads. -/
inductive Outcome (α : Type) where
  | ok (value : α)
  | err (e : CanError)
  | diverged
deriving DecidableEq

/-- MCP2517.verify_ram_address from can.rs: the address must be at least
0x400 and address plus payload length at most 0xBFF. The u16 addition and
the cast of the length wrap modulo 2 to the 16. -/
def verifyRamAddress (addr : Nat) (dataLength : Nat) : Bool :=
  decide (0x400 ≤ addr) && decide ((addr + dataLength % 65536) % 65536 ≤ 0xBFF)

/-- The per 32 bit word big endian to little endian swap applied to the
packed header before a FIFO write (can.rs write_fifo). -/
def swapWords4 : List Nat → List Nat
  | b0 :: b1 :: b2 :: b3 :: rest => b3 :: b2 :: b1 :: b0 :: swapWords4 rest
  | rest => rest

/-- Numeric value of a Bool bit. -/
def bitVal (b : Bool) : Nat := if b then 1 else 0

/-- TxHeader.into_bytes: MSB first packing of the 64 bit header bitfield of
message.rs into eight bytes, first declared field in the most significant
bits, as the external modular_bitfield_msb crate does (byte order pinned by
the register tests of the repository). -/
def headerBytes (h : TxHeader) : List Nat :=
  [ bitVal h.sid11 * 32 + ((h.extendedIdentifier % 262144) >>> 13)
  , (((h.extendedIdentifier % 262144) >>> 5) % 256)
  , (h.extendedIdentifier % 32) * 8 + ((h.standardIdentifier % 2048) >>> 8)
  , (h.standardIdentifier % 2048) % 256
  , 0
  , 0
  , h.sequence % 128 * 2 + bitVal h.errorStatusIndicator
  , bitVal h.fdFrame * 128 + bitVal h.bitRateSwitch * 64 +
      bitVal h.remoteTransmissionRequest * 32 + bitVal h.identifierExtensionFlag * 16 +
      dlcCode h.dataLengthCode ]

/-- MCP2517.write_fifo from can.rs: validate the RAM address, then under one
chip select cycle transfer the command plus word swapped header, then the
payload padded with zeroes up to the compile time maximum L. On a failed
validation nothing is emitted. -/
def writeFifo (st : SpiSt) (register : Nat) (msg : TxMessage) (L : Nat) :
    Outcome Unit × SpiSt :=
  if verifyRamAddress register msg.buff.length then
    let buffer := [(cmdWord register 2 >>> 8) % 256, cmdWord register 2 &&& 0xFF] ++
      swapWords4 (headerBytes msg.header)
    let data := msg.buff ++ List.replicate (L - msg.buff.length) 0
    let st1 := csAssert st
    let (_, st2) := spiXfer st1 buffer
    let (_, st3) := spiXfer st2 data
    (.ok (), csRelease st3)
  else (.err (.invalidRamAddress register), st)

/-- MCP2517.read_fifo from can.rs: reject buffers whose length is not a
multiple of four, then under one chip select cycle transfer the command for
the register address plus 8 and then the payload buffer, returning the
received bytes. No RAM range validation is performed on this path. -/
def readFifo (st : SpiSt) (register : Nat) (data : List Nat) :
    Outcome (List Nat) × SpiSt :=
  if data.length % 4 ≠ 0 then (.err (.invalidBufferSize data.length), st)
  else
    let payloadAddress := (register + 8) % 65536
    let buffer := [(cmdWord payloadAddress 3 >>> 8) % 256, cmdWord payloadAddress 3 &&& 0xFF]
    let st1 := csAssert st
    let (_, st2) := spiXfer st1 buffer
    let (resp, st3) := spiXfer st2 data
    (.ok resp, csRelease st3)

/-- The payload RAM address computed on the receive path: receive in can.rs
forms 0x400 plus the user address in u32, casts to u16, and read_fifo adds
8 in u16 before masking the command word. -/
def rxPayloadAddress (userAddress : Nat) : Nat :=
  ((0x400 + userAddress) % 4294967296 % 65536 + 8) % 65536

/-- The busy poll loops of transmit and receive in can.rs: repeatedly read a
register byte until the condition holds. The model reports diverged when
the scripted responses are exhausted while the source would still be
polling. -/
def pollLoop (register : Nat) (done : Nat → Bool) :
    List (List Nat) → List Nat → List BusOp → Outcome Nat × SpiSt
  | [], clocks, trace => (.diverged, ⟨[], clocks, trace⟩)
  | r :: rest, clocks, trace =>
    let (byte, st1) := readRegister ⟨r :: rest, clocks, trace⟩ register
    if done byte then (.ok byte, st1)
    else pollLoop register done rest clocks st1.trace

/-- The 2 ms mode change deadline of enable_mode in can.rs, expressed in the
microsecond tick scale of the clock used by the repository tests. -/
def modeTimeout : Nat := 2000

/-- The polling loop of enable_mode in can.rs: read the operation status
byte at C1CON plus 2, then fail with the given timeout error when the clock
reading exceeds the deadline, then return success when the mode read by
this same poll equals the target, else poll again. -/
def modeLoop (target deadline : Nat) (e : CanError) :
    List (List Nat) → List Nat → List BusOp → Outcome Unit × SpiSt
  | [], clocks, trace => (.diverged, ⟨[], clocks, trace⟩)
  | r :: rest, clocks, trace =>
    let (byte, st1) := readRegister ⟨r :: rest, clocks, trace⟩ 0x2
    match clocks with
    | [] => (.err .clockError, ⟨st1.responses, [], st1.trace⟩)
    | t :: cts =>
      if deadline < t then (.err e, ⟨st1.responses, cts, st1.trace⟩)
      else if byte >>> 5 = target then (.ok (), ⟨st1.responses, cts, st1.trace⟩)
      else modeLoop target deadline e rest cts st1.trace

/-- MCP2517.enable_mode from can.rs: write the target mode value or-ed with
the abort bit to C1CON byte 3 without reading the register first, take a
clock reading, add the 2 ms deadline, then poll the operation status. -/
def enableMode (mode : OperationMode) (timeoutError : CanError) (st : SpiSt) :
    Outcome Unit × SpiSt :=
  let st1 := writeRegister st 0x3 (mode.val ||| (1 <<< 3))
  match st1.clocks with
  | [] => (.err .clockError, st1)
  | t0 :: cts =>
    modeLoop mode.val (t0 + modeTimeout) timeoutError st1.responses cts st1.trace

/-- MCP2517.enable_filter from can.rs: disable the filter, write the FIFO
index, then set the enable bit together with the FIFO index. -/
def enableFilter (st : SpiSt) (fifoIndex filterIndex : Nat) : SpiSt :=
  let st1 := writeRegister st (filterControlRegisterByte filterIndex) 0
  let st2 := writeRegister st1 (filterControlRegisterByte filterIndex) fifoIndex
  writeRegister st2 (filterControlRegisterByte filterIndex) (128 ||| fifoIndex)

/-- MCP2517.configure from can.rs: enter configuration mode, write the OSC
register, write C1NBTCFG from the bit rate table, write the RX and TX FIFO
control bytes, enable filter 0 routing to FIFO 1, then request the target
mode. -/
def configure (config : Configuration) (st : SpiSt) : Outcome Unit × SpiSt :=
  match enableMode .configuration .configurationModeTimeout st with
  | (.ok _, st1) =>
    let st2 := writeRegister st1 0xE00 config.clock.asRegister
    let st3 := write32 st2 0x4 (nbtToU32 (calculateValues config.bitRate))
    let st4 := writeRegister st3 (fifoControlRegister 1 + 3) config.fifo.asRxRegister3
    let st5 := writeRegister st4 (fifoControlRegister 2 + 2) config.fifo.asTxRegister2
    let st6 := writeRegister st5 (fifoControlRegister 2 + 3) config.fifo.asTxRegister3
    let st7 := writeRegister st6 (fifoControlRegister 2) config.fifo.asTxRegister0
    let st8 := enableFilter st7 1 0
    enableMode config.mode.toOperationMode .requestModeTimeout st8
  | (.err e, st1) => (.err e, st1)
  | (.diverged, st1) => (.diverged, st1)

/-- MCP2517.transmit from can.rs. There is no blocking parameter: the first
loop polls the TX FIFO status byte until the not full flag, bit 0, is set,
then the operation mode bounds the payload length, then the user address
register gives the RAM address, the message is written, transmission is
requested, and a second loop polls until the TXREQ bit, bit 1, clears. -/
def transmit (msg : TxMessage) (st : SpiSt) : Outcome Unit × SpiSt :=
  match pollLoop (fifoStatusRegister 2) (fun b => b % 2 = 1) st.responses st.clocks st.trace with
  | (.ok _, st1) =>
    let (statusByte, st2) := readRegister st1 0x2
    if msg.buff.length > 8 ∧ statusByte >>> 5 ≠ 0 then
      (.err (.invalidPayloadLength msg.buff.length), st2)
    else
      let (ua, st3) := read32 st2 (fifoUserAddressRegister 2)
      let address := (ua + 0x400) % 4294967296
      match writeFifo st3 (address % 65536) msg msg.messageType.maxLen with
      | (.ok _, st4) =>
        let st5 := writeRegister st4 (fifoControlRegister 2 + 1) 3
        match pollLoop (fifoControlRegister 2 + 1) (fun b => (b >>> 1) % 2 = 0)
            st5.responses st5.clocks st5.trace with
        | (.ok _, st6) => (.ok (), st6)
        | (.err e, st6) => (.err e, st6)
        | (.diverged, st6) => (.diverged, st6)
      | (.err e, st4) => (.err e, st4)
      | (.diverged, st4) => (.diverged, st4)
  | (.err e, st1) => (.err e, st1)
  | (.diverged, st1) => (.diverged, st1)

/-- MCP2517.receive from can.rs. There is no blocking parameter: the loop
polls the RX FIFO status byte until the not empty flag, bit 0, is set, then
the user address register gives the RAM address, the payload is read with
read_fifo, and the UINC bit is written. -/
def receive (dataBuf : List Nat) (st : SpiSt) : Outcome (List Nat) × SpiSt :=
  match pollLoop (fifoStatusRegister 1) (fun b => b % 2 = 1) st.responses st.clocks st.trace with
  | (.ok _, st1) =>
    let (ua, st2) := read32 st1 (fifoUserAddressRegister 1)
    let address := (0x400 + ua) % 4294967296
    match readFifo st2 (address % 65536) dataBuf with
    | (.ok received, st3) =>
      let st4 := writeRegister st3 (fifoControlRegister 1 + 1) 1
      (.ok received, st4)
    | (.err e, st3) => (.err e, st3)
    | (.diverged, st3) => (.diverged, st3)
  | (.err e, st1) => (.err e, st1)
  | (.diverged, st1) => (.diverged, st1)

/-- Modelled from the spec: the padded length used by the RAM guard sentence
of the specification, the payload length rounded up to a multiple of four. -/
def pad4 (n : Nat) : Nat := (n + 3) / 4 * 4

/-- The classical CAN message with eight payload bytes and the extended
identifier 0x14C92A2B used in the repository transmit tests. -/
def c1ExampleMsg : TxMessage :=
  { header := { extendedIdentifier := 0x12A2B, standardIdentifier := 0x532,
                identifierExtensionFlag := true, dataLengthCode := .eight },
    buff := [1, 2, 3, 4, 5, 6, 7, 8], messageType := .can20 8 }

/-- Configuration of the successful configure scenario: 20 MHz, 500 kbps,
clock output divided by ten with the tenfold PLL, RX size 16, TX size 20,
priority 10, three retransmission attempts, target mode normal CAN 2.0. -/
def c7Cfg : Configuration :=
  { clock := { clockOutput := .divideBy10, systemClock := .divideBy1,
               disableClock := false, pll := .tenTimesPLL },
    fifo := { rxSize := 16, txAttempts := .three, txPriority := 10,
              txSize := 20, plSize := .eightBytes, txEnable := true },
    mode := .normalCAN2,
    bitRate := { sysClk := .mhz20, canSpeed := .kbps500 } }

/-- Scripted bus responses and clock readings for one successful configure
run: the first status poll already reports configuration mode and the last
reports normal CAN 2.0 mode. -/
def c7St : SpiSt :=
  { responses := [[0, 0, 0], [0, 0, 0x94], [0, 0, 0], [0, 0, 0, 0, 0, 0], [0, 0, 0],
                  [0, 0, 0], [0, 0, 0], [0, 0, 0], [0, 0, 0], [0, 0, 0], [0, 0, 0],
                  [0, 0, 0], [0, 0, 0xC0]],
    clocks := [100, 200, 10000, 10100],
    trace := [] }

/-- Scripted bus responses for one receive run in which the chip reports a
user address of 0x800: one status poll with the not empty flag set, the
four byte user address read, the FIFO read command and payload phases, and
the UINC write. -/
def c5ReceiveSt : SpiSt :=
  { responses := [[0, 0, 1], [0, 0, 0, 8, 0, 0], [0, 0], [1, 2, 3, 4, 5, 6, 7, 8], [0, 0, 0]],
    clocks := [], trace := [] }

/-- The message produced by TxMessage.new for the CAN 2.0 kind with maximum
length 8, a three byte payload, and the standard identifier 0x123. -/
def c3ExampleMsg : TxMessage :=
  { header := { standardIdentifier := 0x123, dataLengthCode := .three },
    buff := [1, 2, 3], messageType := .can20 8 }

/-- The message produced by TxMessage.new for the CAN 2.0 kind with maximum
length 8, an eight byte payload, and the extended identifier 0x14C92A2B. -/
def c9ExampleMsg : TxMessage :=
  { header := { extendedIdentifier := 0x12A2B, standardIdentifier := 0x532,
                identifierExtensionFlag := true, dataLengthCode := .eight },
    buff := [1, 2, 3, 4, 5, 6, 7, 8], messageType := .can20 8 }

theorem dlcFromLength_none_of_gt (m : Nat) (hm : 64 < m) : dlcFromLength m = none := by
  unfold dlcFromLength
  repeat rw [if_neg (by omega)]

theorem dlcSupported_iff_mem (m : Nat) :
    (dlcFromLength m).isSome = true ↔ m ∈ supportedDlcLengths := by
  rcases Nat.lt_or_ge m 65 with h | h
  · have hall : ∀ m' < 65, ((dlcFromLength m').isSome = true ↔ m' ∈ supportedDlcLengths) := by
      decide
    exact hall m h
  · rw [dlcFromLength_none_of_gt m (by omega)]
    simp only [Option.isSome_none, Bool.false_eq_true, false_iff, supportedDlcLengths,
      List.mem_cons, List.not_mem_nil, or_false]
    omega

theorem findDlcLen_spec : ∀ (fuel v r : Nat), findDlcLen v fuel = some r →
    v ≤ r ∧ (dlcFromLength r).isSome = true ∧
      ∀ m, v ≤ m → (dlcFromLength m).isSome = true → r ≤ m := by
  intro fuel
  induction fuel with
  | zero => intro v r h; simp [findDlcLen] at h
  | succ f ih =>
    intro v r h
    unfold findDlcLen at h
    by_cases hv : (dlcFromLength v).isSome = true
    · rw [if_pos hv] at h
      injection h with h
      subst h
      exact ⟨Nat.le_refl _, hv, fun m hm _ => hm⟩
    · rw [if_neg hv] at h
      obtain ⟨h1, h2, h3⟩ := ih (v + 1) r h
      refine ⟨by omega, h2, ?_⟩
      intro m hm hsm
      rcases Nat.eq_or_lt_of_le hm with rfl | hlt
      · exact absurd hsm hv
      · exact h3 m (by omega) hsm

theorem dlcFromLength_byteCount : ∀ (v : Nat) (d : DLC), dlcFromLength v = some d →
    dlcByteCount d = v := by
  intro v d h
  rcases Nat.lt_or_ge v 65 with hv | hv
  · have hall : ∀ v' < 65, ((dlcFromLength v').map dlcByteCount).getD v' = v' := by decide
    have hd := hall v hv
    rw [h] at hd
    simpa using hd
  · rw [dlcFromLength_none_of_gt v (by omega)] at h
    exact Option.noConfusion h

/-- C1: evaluation of the code at the failing input of the specification
scenario. When the TX FIFO status byte reads 0x00 with the not full flag
clear, transmit does not return any FIFO full error: the only Error variants
in can.rs are listed in CanError, none of them a TxFifoFullErr, there is no
blocking argument, and the source keeps polling the status register, which
the model reports as diverged once the scripted responses are exhausted. -/
theorem c1_transmit_blocks_on_full_fifo :
    (transmit c1ExampleMsg ⟨[[0, 0, 0]], [], []⟩).1 = .diverged ∧
    (transmit c1ExampleMsg ⟨[[0, 0, 0]], [], []⟩).2.trace =
      [.csLow, .xfer [0x30, 0x6C, 0], .csHigh] := by decide

/-- C2 counterexample: running enable_mode toward configuration mode, the
very first bus operation is already the write of C1CON byte 3 with the value
0x0C, so no read of that register precedes it anywhere in the run, the upper
four bits of the written byte are zero rather than any previously read
value, and for a register previously holding 0xF0 the preserving value 0xFC
differs from the written 0x0C. -/
theorem c2_enable_mode_not_read_modify_write :
    ((enableMode .configuration .configurationModeTimeout
        ⟨[[0, 0, 0], [0, 0, 0xF0], [0, 0, 0x94]], [100, 200, 300], []⟩).2.trace.getD 0 .csHigh
      = .csLow) ∧
    ((enableMode .configuration .configurationModeTimeout
        ⟨[[0, 0, 0], [0, 0, 0xF0], [0, 0, 0x94]], [100, 200, 300], []⟩).2.trace.getD 1 .csHigh
      = .xfer [0x20, 0x03, 0x0C]) ∧
    (∀ op ∈ (enableMode .configuration .configurationModeTimeout
        ⟨[[0, 0, 0], [0, 0, 0xF0], [0, 0, 0x94]], [100, 200, 300], []⟩).2.trace,
      op ≠ .xfer [0x30, 0x03, 0x00]) ∧
    (0x0C : Nat) &&& 0xF0 = 0 ∧ (0x0C : Nat) ≠ 0xF0 ||| 0x0C := by decide

/-- C4 counterexample: at address 0xBFE with a one byte payload the FIFO
write succeeds, although address plus the padded length is 0xC02, beyond
the bound 0xC00 claimed by the specification. -/
theorem c4_ram_guard_counterexample :
    (writeFifo ⟨[], [], []⟩ 0xBFE
        { header := { standardIdentifier := 0x123, dataLengthCode := .one },
          buff := [1], messageType := .can20 4 } 4).1 = .ok () ∧
    ¬ (0xBFE + pad4 1 ≤ 0xC00) := by decide

/-- C4 amended: the FIFO write succeeds exactly when the address is at least
0x400 and the address plus the unpadded payload length, in wrapping u16
arithmetic, is at most 0xBFF; otherwise it fails with InvalidRamAddress and
leaves the bus untouched, the chip select never asserted. -/
theorem c4_ram_guard_exact (st : SpiSt) (addr : Nat) (msg : TxMessage) (L : Nat) :
    ((writeFifo st addr msg L).1 = .ok () ↔
      0x400 ≤ addr ∧ (addr + msg.buff.length % 65536) % 65536 ≤ 0xBFF) ∧
    ((writeFifo st addr msg L).1 ≠ .ok () →
      (writeFifo st addr msg L).1 = .err (.invalidRamAddress addr) ∧
        (writeFifo st addr msg L).2 = st) := by
  unfold writeFifo verifyRamAddress
  rw [show (addr + msg.buff.length % 65536) % 65536 = (addr + msg.buff.length) % 65536 from
    by omega]
  by_cases h1 : 0x400 ≤ addr <;>
    by_cases h2 : (addr + msg.buff.length) % 65536 ≤ 0xBFF <;>
      simp [h1, h2]

/-- Witness for the amended C4 theorem at address zero. -/
theorem c4_ram_guard_exact_witness :
    (writeFifo ⟨[], [], []⟩ 0
        { header := {}, buff := [], messageType := .can20 4 } 4).1 =
      .err (.invalidRamAddress 0) ∧
    (writeFifo ⟨[], [], []⟩ 0
        { header := {}, buff := [], messageType := .can20 4 } 4).2 = ⟨[], [], []⟩ :=
  (c4_ram_guard_exact ⟨[], [], []⟩ 0
    { header := {}, buff := [], messageType := .can20 4 } 4).2 (by decide)

/-- C5 counterexample: when the chip reports user address 0x800, receive
succeeds and emits the FIFO read command for RAM address 0xC08, which lies
outside the valid range ending at 0xBFF; no validation takes place on the
receive path. -/
theorem c5_receive_address_counterexample :
    (receive (List.replicate 8 0) c5ReceiveSt).1 = .ok [1, 2, 3, 4, 5, 6, 7, 8] ∧
    (receive (List.replicate 8 0) c5ReceiveSt).2.trace.getD 7 .csLow = .xfer [0x3C, 0x08] ∧
    rxPayloadAddress 0x800 = 0xC08 ∧ ¬ (0xC08 ≤ 0xBFF) := by decide

/-- C5 amended: the payload address of the receive path lies in the valid
RAM range only for user addresses up to 0x7F7; the driver itself performs
no check. -/
theorem c5_rx_payload_address_bounds (ua : Nat) (h : ua ≤ 0x7F7) :
    0x400 ≤ rxPayloadAddress ua ∧ rxPayloadAddress ua ≤ 0xBFF := by
  unfold rxPayloadAddress
  omega

/-- Witness for the amended C5 theorem at the user address of the receive
scenario of the specification. -/
theorem c5_rx_payload_address_bounds_witness :
    0x400 ≤ rxPayloadAddress 0x47C ∧ rxPayloadAddress 0x47C ≤ 0xBFF :=
  c5_rx_payload_address_bounds 0x47C (by norm_num)

/-- C6: calculate_values is total by construction, returns no error value,
and agrees with the section 6 table of the specification on every pair,
including the fallback row for every unlisted pair. -/
theorem c6_bit_time_table_exact (c : BitRateConfig) :
    calculateValues c = specBitTimeTable c := by
  obtain ⟨s, b⟩ := c
  cases s <;> cases b <;> rfl

/-- C7 counterexample: in the successful configure run at 20 MHz and
500 kbps the byte sequence claimed by the specification, 0x01 0x1E 0x07
0x00 after the command bytes, never appears on the wire, although the run
succeeds. -/
theorem c7_nbtcfg_bytes_counterexample :
    BusOp.xfer [0x20, 0x04, 0x01, 0x1E, 0x07, 0x00] ∉ (configure c7Cfg c7St).2.trace ∧
    (configure c7Cfg c7St).1 = .ok () := by decide

/-- C7 amended: the C1NBTCFG write of that configure run carries the bytes
0x01 0x07 0x1E 0x00 after the command bytes: the register value 0x001E0701
built from the table row 0, 30, 7, 1 emitted in little endian order. -/
theorem c7_nbtcfg_bytes_actual :
    (configure c7Cfg c7St).2.trace.getD 10 .csLow =
      .xfer [0x20, 0x04, 0x01, 0x07, 0x1E, 0x00] ∧
    nbtToU32 (calculateValues { sysClk := .mhz20, canSpeed := .kbps500 }) = 0x001E0701 ∧
    leBytes4 0x001E0701 = [0x01, 0x07, 0x1E, 0x00] := by decide

/-- C8 counterexample: a poll whose status read reports the target mode,
configuration, still returns the timeout error because the clock reading
taken directly after the read exceeds the deadline. -/
theorem c8_timeout_despite_target_read :
    (enableMode .configuration .configurationModeTimeout
        ⟨[[0, 0, 0], [0, 0, 0x94]], [100, 2500], []⟩).1 = .err .configurationModeTimeout ∧
    0x94 >>> 5 = OperationMode.configuration.val ∧
    100 + modeTimeout < 2500 := by decide

/-- C10: set_mask_standard_id panics, modelled as none, exactly for masks
above 0x7FF, and set_mask_extended_id exactly for masks above 0x1FFFFFFF;
within the ranges neither panics. -/
theorem c10_set_mask_panic_bounds (f : Filter) (mask : Nat) :
    ((setMaskStandardId f mask).isNone = true ↔ 0x7FF < mask) ∧
    ((setMaskExtendedId f mask).isNone = true ↔ 0x1FFFFFFF < mask) := by
  unfold setMaskStandardId setMaskExtendedId standardIdNew extendedIdNew
  constructor <;> (split_ifs with h <;> simp <;> omega)

theorem modeLoop_trace_ext (target deadline : Nat) (e : CanError) :
    ∀ (rs : List (List Nat)) (cs : List Nat) (tr : List BusOp),
      ∃ t2, (modeLoop target deadline e rs cs tr).2.trace = tr ++ t2 := by
  intro rs
  induction rs with
  | nil => intro cs tr; exact ⟨[], by simp [modeLoop]⟩
  | cons r rest ih =>
    intro cs tr
    cases cs with
    | nil =>
      refine ⟨[.csLow, .xfer (cmdBuffer 0x2 3), .csHigh], ?_⟩
      simp [modeLoop, readRegister, busTransfer, spiXfer, csAssert, csRelease]
    | cons t cts =>
      simp only [modeLoop, readRegister, busTransfer, spiXfer, csAssert, csRelease,
        List.headD_cons, List.tail_cons, List.nil_append, List.append_assoc]
      by_cases ht : deadline < t
      · rw [if_pos ht]
        exact ⟨[.csLow, .xfer (cmdBuffer 0x2 3), .csHigh], by simp⟩
      · rw [if_neg ht]
        by_cases hb : (List.getD r 2 0) >>> 5 = target
        · rw [if_pos hb]
          exact ⟨[.csLow, .xfer (cmdBuffer 0x2 3), .csHigh], by simp⟩
        · rw [if_neg hb]
          obtain ⟨t2, h2⟩ := ih cts (tr ++ [.csLow, .xfer (cmdBuffer 0x2 3), .csHigh])
          refine ⟨[.csLow, .xfer (cmdBuffer 0x2 3), .csHigh] ++ t2, ?_⟩
          simp only [List.append_assoc] at h2 ⊢
          exact h2

/-- C2 amended: for every target mode and every scripted environment, the
first three bus events of enable_mode are chip select assert, the write of
C1CON byte 3 carrying the single byte target value or-ed with the abort
bit, and chip select release; the written byte always has its upper four
bits clear, since no previous register value is read or merged. -/
theorem c2_enable_mode_blind_write (mode : OperationMode) (e : CanError)
    (rs : List (List Nat)) (cs : List Nat) :
    (enableMode mode e ⟨rs, cs, []⟩).2.trace.take 3 =
      [.csLow, .xfer [0x20, 0x03, mode.val ||| 8], .csHigh] ∧
    mode.val ||| 8 < 16 := by
  refine ⟨?_, by cases mode <;> decide⟩
  have hw : writeRegister ⟨rs, cs, []⟩ 0x3 (mode.val ||| (1 <<< 3)) =
      ⟨rs.tail, cs, [.csLow, .xfer [0x20, 0x03, mode.val ||| 8], .csHigh]⟩ := by
    cases mode <;> rfl
  unfold enableMode
  rw [hw]
  cases cs with
  | nil => rfl
  | cons t0 cts =>
    obtain ⟨t2, h2⟩ := modeLoop_trace_ext mode.val (t0 + modeTimeout) e rs.tail cts
      [.csLow, .xfer [0x20, 0x03, mode.val ||| 8], .csHigh]
    simp only []
    rw [h2]
    exact List.take_left' rfl

/-- C8 amended: on every poll of the enable_mode loop the timeout error is
returned whenever the clock reading taken after the status read exceeds the
deadline, regardless of the mode that was read; success is returned when
the poll reads the target mode and the clock reading is within the
deadline. -/
theorem c8_poll_outcome (target deadline : Nat) (e : CanError)
    (r : List Nat) (rest : List (List Nat)) (t : Nat) (cts : List Nat) (tr : List BusOp) :
    (deadline < t →
      (modeLoop target deadline e (r :: rest) (t :: cts) tr).1 = .err e) ∧
    (t ≤ deadline → (List.getD r 2 0) >>> 5 = target →
      (modeLoop target deadline e (r :: rest) (t :: cts) tr).1 = .ok ()) := by
  constructor
  · intro ht
    simp only [modeLoop, readRegister, busTransfer, spiXfer, csAssert, csRelease,
      List.headD_cons, List.tail_cons]
    rw [if_pos ht]
  · intro ht hb
    simp only [modeLoop, readRegister, busTransfer, spiXfer, csAssert, csRelease,
      List.headD_cons, List.tail_cons]
    rw [if_neg (Nat.not_lt.2 ht), if_pos hb]

/-- Witness for the amended C8 theorem: a late poll reading the target mode
4 returns the timeout error, a timely one returns success. -/
theorem c8_poll_outcome_witness :
    (modeLoop 4 2100 .configurationModeTimeout [[0, 0, 0x94]] [2500] []).1 =
      .err .configurationModeTimeout ∧
    (modeLoop 4 2100 .configurationModeTimeout [[0, 0, 0x94]] [200] []).1 = .ok () :=
  ⟨(c8_poll_outcome 4 2100 .configurationModeTimeout [0, 0, 0x94] [] 2500 [] []).1 (by decide),
   (c8_poll_outcome 4 2100 .configurationModeTimeout [0, 0, 0x94] [] 200 [] []).2 (by decide)
     (by decide)⟩

theorem extended_split_join (eid : Nat) (h : eid ≤ 0x1FFFFFFF) :
    reconstructExtendedId ((eid >>> 18) &&& 0x7FF) (eid &&& 0x3FFFF) = eid := by
  have h11 : (0x7FF : Nat) = 2 ^ 11 - 1 := by norm_num
  have h18 : (0x3FFFF : Nat) = 2 ^ 18 - 1 := by norm_num
  unfold reconstructExtendedId
  rw [h11, h18]
  apply Nat.eq_of_testBit_eq
  intro i
  simp only [Nat.testBit_or, Nat.testBit_and, Nat.testBit_shiftLeft, Nat.testBit_shiftRight,
    Nat.testBit_two_pow_sub_one]
  rcases Nat.lt_or_ge i 18 with hi | hi
  · simp [Nat.not_le.2 hi, hi]
  · have h1 : 18 + (i - 18) = i := by omega
    rcases Nat.lt_or_ge i 29 with hi29 | hi29
    · simp [hi, h1, show i - 18 < 11 by omega, show ¬ i < 18 by omega]
    · have hlt : eid < 2 ^ i := by
        calc eid < 2 ^ 29 := by omega
        _ ≤ 2 ^ i := Nat.pow_le_pow_right (by norm_num) hi29
      simp [hi, h1, show ¬ i - 18 < 11 by omega, show ¬ i < 18 by omega,
        Nat.testBit_lt_two_pow hlt]

/-- C9: for every extended identifier of at most 29 bits, building a TX
header through TxMessage.new and reconstructing the identifier the way
RxHeader.get_id does, standard field shifted left by 18 or-ed with the
extended field, yields the original identifier. -/
theorem c9_extended_id_roundtrip (eid : Nat) (h : eid ≤ 0x1FFFFFFF)
    (kind : MsgKind) (data : List Nat) (msg : TxMessage)
    (hok : txMessageNew kind data (.extended eid) = .ok msg) :
    reconstructExtendedId msg.header.standardIdentifier msg.header.extendedIdentifier
      = eid := by
  unfold txMessageNew at hok
  cases hs : setupHeader kind {} data.length with
  | error e =>
    simp only [hs] at hok
    exact Except.noConfusion hok
  | ok header0 =>
    simp only [hs] at hok
    cases hf : findDlcLen data.length 65 with
    | none =>
      simp only [hf] at hok
      exact Except.noConfusion hok
    | some len =>
      simp only [hf] at hok
      cases hd : dlcFromLength len with
      | none =>
        simp only [hd] at hok
        exact Except.noConfusion hok
      | some dlc =>
        simp only [hd] at hok
        injection hok with h2
        subst h2
        exact extended_split_join eid h

/-- Witness for the C9 round trip at the extended identifier 0x14C92A2B of
the repository transmit tests. -/
theorem c9_extended_id_roundtrip_witness :
    reconstructExtendedId c9ExampleMsg.header.standardIdentifier
      c9ExampleMsg.header.extendedIdentifier = 0x14C92A2B :=
  c9_extended_id_roundtrip 0x14C92A2B (by norm_num) (.can20 8) [1, 2, 3, 4, 5, 6, 7, 8]
    c9ExampleMsg rfl

/-- C3: whenever TxMessage.new succeeds, the byte count encoded by the DLC
field of the header is at least the payload length and is the smallest
member of the supported set 0 to 8, 12, 16, 20, 24, 32, 48, 64 with that
property. -/
theorem c3_dlc_smallest_supported (kind : MsgKind) (data : List Nat) (id : CanId)
    (msg : TxMessage) (hok : txMessageNew kind data id = .ok msg) :
    data.length ≤ dlcByteCount msg.header.dataLengthCode ∧
    dlcByteCount msg.header.dataLengthCode ∈ supportedDlcLengths ∧
    ∀ m ∈ supportedDlcLengths, data.length ≤ m →
      dlcByteCount msg.header.dataLengthCode ≤ m := by
  unfold txMessageNew at hok
  cases hs : setupHeader kind {} data.length with
  | error e =>
    simp only [hs] at hok
    exact Except.noConfusion hok
  | ok header0 =>
    simp only [hs] at hok
    cases hf : findDlcLen data.length 65 with
    | none =>
      simp only [hf] at hok
      exact Except.noConfusion hok
    | some len =>
      simp only [hf] at hok
      cases hd : dlcFromLength len with
      | none =>
        simp only [hd] at hok
        exact Except.noConfusion hok
      | some dlc =>
        simp only [hd] at hok
        injection hok with h2
        subst h2
        obtain ⟨h1, h2s, h3⟩ := findDlcLen_spec 65 data.length len hf
        have hb : dlcByteCount dlc = len := dlcFromLength_byteCount len dlc hd
        cases id <;> dsimp only <;> rw [hb] <;>
          exact ⟨h1, (dlcSupported_iff_mem len).1 h2s,
            fun m hm hlm => h3 m hlm ((dlcSupported_iff_mem m).2 hm)⟩

/-- Witness for the C3 theorem: a three byte payload is encoded with DLC
code three, the smallest supported byte count at least three. -/
theorem c3_dlc_smallest_supported_witness :
    ([1, 2, 3] : List Nat).length ≤ dlcByteCount c3ExampleMsg.header.dataLengthCode ∧
    dlcByteCount c3ExampleMsg.header.dataLengthCode ∈ supportedDlcLengths ∧
    ∀ m ∈ supportedDlcLengths, ([1, 2, 3] : List Nat).length ≤ m →
      dlcByteCount c3ExampleMsg.header.dataLengthCode ≤ m :=
  c3_dlc_smallest_supported (.can20 8) [1, 2, 3] (.standard 0x123) c3ExampleMsg rfl

end Mcp2517
